import Mathlib

/-!
Verification development for the smart-grid-he verifiable-aggregation core.

Shallow embedding of:
- `core/verifiable_aggregation.py` (Pedersen commitment scheme, aggregation, verification)
- `core/polynomial_comparator.py`  (Adaptive Linear Threshold detector, score interpretation)
- `coordinator/load_balancer.py`   (UtilityDecisionMaker: decisions, verification, interpretation)
- `core/fhe_engine.py`             (`aggregate_demands` structure; the CKKS primitive itself is
                                    external and abstracted behind opaque parameters)

Modelling conventions:
- Python floats are modelled as exact rationals (ℚ); Python ints as ℤ/ℕ.
- Python `int(x)` truncates toward zero: `pyInt` below.
- Python `pow(b, e, m)` is modular exponentiation: `powMod` below, with proof
  `powMod_eq` that it computes `b ^ e % m`.
- Python exceptions are modelled with `Except PyErr`.
- `secrets.randbelow(n)` is nondeterministic; the drawn value is surfaced as an
  explicit argument, with the guarantee that it lies in `[0, n-1]`.
-/

/-- Python exception classes that occur in the modelled code paths. `cryptoConfigError`
is the error class named by the specification's taxonomy (it does not occur anywhere
in the repository's code). -/
inductive PyErr where
  | valueError (msg : String)
  | typeError (msg : String)
  | zeroDivisionError
  | cryptoConfigError
  deriving DecidableEq

/-- Python `int(x)` applied to a real value: truncation toward zero. -/
def pyInt (q : ℚ) : ℤ := if q < 0 then -⌊-q⌋ else ⌊q⌋

theorem pyInt_intCast (m : ℤ) : pyInt (m : ℚ) = m := by
  unfold pyInt
  split
  · rw [← Int.cast_neg, Int.floor_intCast]
    ring
  · rw [Int.floor_intCast]

/-- Fuel-driven binary modular exponentiation (the algorithm of Python's 3-argument `pow`). -/
def powModAux : ℕ → ℕ → ℕ → ℕ → ℕ
  | 0, _b, _e, m => 1 % m
  | fuel+1, b, e, m =>
    if e = 0 then 1 % m
    else
      let r := powModAux fuel (b * b % m) (e / 2) m
      if e % 2 = 1 then r * b % m else r

/-- Python `pow(b, e, m)` for `e ≥ 0`. -/
def powMod (b e m : ℕ) : ℕ := powModAux (e + 1) b e m

theorem powModAux_eq (fuel : ℕ) : ∀ b e : ℕ, ∀ m : ℕ, 0 < m → e ≤ fuel →
    powModAux fuel b e m = b ^ e % m := by
  induction fuel with
  | zero =>
    intro b e m _ he
    interval_cases e
    simp [powModAux]
  | succ fuel ih =>
    intro b e m hm he
    rw [powModAux]
    rcases Nat.eq_zero_or_pos e with he0 | he0
    · simp [he0]
    · rw [if_neg (Nat.pos_iff_ne_zero.mp he0)]
      have hdiv : e / 2 ≤ fuel :=
        Nat.le_of_lt_succ (Nat.lt_of_lt_of_le (Nat.div_lt_self he0 one_lt_two) he)
      have hr : powModAux fuel (b * b % m) (e / 2) m = (b * b) ^ (e / 2) % m := by
        rw [ih (b * b % m) (e / 2) m hm hdiv, ← Nat.pow_mod]
      have hsplit : 2 * (e / 2) + e % 2 = e := Nat.div_add_mod e 2
      have hbb : b * b = b ^ 2 := (sq b).symm
      rcases Nat.mod_two_eq_zero_or_one e with hpar | hpar
      · have he2 : 2 * (e / 2) = e := by omega
        rw [if_neg (by omega), hr, hbb, ← pow_mul, he2]
      · have he2 : 2 * (e / 2) + 1 = e := by omega
        rw [if_pos hpar, hr, Nat.mod_mul_mod, hbb, ← pow_mul]
        rw [show b ^ (2 * (e / 2)) * b = b ^ (2 * (e / 2) + 1) from (pow_succ b _).symm, he2]

theorem powMod_eq (b e m : ℕ) (hm : 0 < m) : powMod b e m = b ^ e % m :=
  powModAux_eq (e + 1) b e m hm (Nat.le_succ e)

/-! ## core/verifiable_aggregation.py -/

/-- RFC 3526 MODP Group 14 prime (verifiable_aggregation.py:84). -/
def PEDERSEN_PRIME : ℕ :=
  0xFFFFFFFFFFFFFFFFC90FDAA22168C234C4C6628B80DC1CD129024E088A67CC74020BBEA63B139B22514A08798E3404DDEF9519B3CD3A431B302B0A6DF25F14374FE1356D6D51C245E485B576625E7EC6F44C42E9A637ED6B0BFF5CB6F406B7EDEE386BFB5A899FA5AE9F24117C4B1FE649286651ECE45B3DC2007CB8A163BF0598DA48361C55D39A69163FA8FD24CF5F83655D23DCA3AD961C62F356208552BB9ED529077096966D670C354E4ABC9804F1746C08CA18217C32905E462E36CE3BE39E772C180E86039B2783A2EC07A28FB5C55DF06F4C52C9DE2BCBF6955817183995497CEA956AE515D2261898FA051015728E5A8AACAA68FFFFFFFFFFFFFFFF

/-- Generator g = 2 (verifiable_aggregation.py:97). -/
def PEDERSEN_G : ℕ := 2

/-- `int.from_bytes(hashlib.sha256(b"SmartGridHE_Pedersen_Commitment_Generator_H_v1").digest(), 'big')`:
the SHA-256 digest of the fixed seed of verifiable_aggregation.py:101, as a big-endian integer
(the hash primitive is external library code; its value on this one fixed input is embedded
as a constant). -/
def H_SEED_HASH : ℕ :=
  0xabf251c84244a41d5cb71c8da280929ceb294c6ac821006c971e3901c3c2d24c

/-- Second generator `h = pow(g, hash, p)` (verifiable_aggregation.py:102). -/
def PEDERSEN_H : ℕ := powMod PEDERSEN_G H_SEED_HASH PEDERSEN_PRIME

/-- Scale factor for float→int conversion (verifiable_aggregation.py:109). -/
def DEFAULT_SCALE_FACTOR : ℤ := 1000000

/-- Dataclass `PedersenCommitment` (verifiable_aggregation.py:116). -/
structure PedersenCommitment where
  commitment : ℕ
  value : ℚ
  randomness : ℤ
  scale_factor : ℤ
  deriving DecidableEq

/-- Dataclass `CommitmentOpening` (verifiable_aggregation.py:154). -/
structure CommitmentOpening where
  value : ℚ
  randomness : ℤ
  scale_factor : ℤ
  agent_id : String
  deriving DecidableEq

/-- Dataclass `AggregateCommitment` (verifiable_aggregation.py:167). -/
structure AggregateCommitment where
  commitment : ℕ
  individual_count : ℕ
  scale_factor : ℤ
  deriving DecidableEq

/-- Dataclass `AggregateOpening` (verifiable_aggregation.py:188). -/
structure AggregateOpening where
  total_value : ℚ
  total_randomness : ℤ
  scale_factor : ℤ
  agent_count : ℕ
  deriving DecidableEq

/-- Dataclass `VerificationResult` (verifiable_aggregation.py:204). -/
structure VerificationResult where
  is_valid : Bool
  decrypted_sum : ℚ
  committed_sum : ℚ
  discrepancy : ℚ
  message : String
  deriving DecidableEq

/-- Class `PedersenCommitmentScheme` (verifiable_aggregation.py:218): the `__init__`
parameters `prime`, `g`, `h`, `scale_factor`. -/
structure PedersenCommitmentScheme where
  p : ℕ
  g : ℕ
  h : ℕ
  scale_factor : ℤ
  deriving DecidableEq

namespace PedersenCommitmentScheme

/-- `self.group_order = prime - 1` (verifiable_aggregation.py:247). -/
def group_order (s : PedersenCommitmentScheme) : ℕ := s.p - 1

/-- `PedersenCommitmentScheme.__init__` (verifiable_aggregation.py:227): performs no
validation of any parameter; it only stores them. Modelled as a checked constructor
to record that no exception is raised. -/
def initChecked (prime g h : ℕ) (scale_factor : ℤ) :
    Except PyErr PedersenCommitmentScheme :=
  .ok { p := prime, g := g, h := h, scale_factor := scale_factor }

/-- `PedersenCommitmentScheme.commit` (verifiable_aggregation.py:249).
`sampled` is the value drawn by `secrets.randbelow(self.group_order)`; it is used
only when `randomness` is absent. -/
def commit (s : PedersenCommitmentScheme) (value : ℚ) (randomness : Option ℤ)
    (sampled : ℕ) : PedersenCommitment :=
  let m_scaled : ℤ := pyInt (value * (s.scale_factor : ℚ))
  let r : ℤ := match randomness with
    | some r => r
    | none => (sampled : ℤ)
  let g_m : ℕ := powMod s.g (m_scaled % (s.group_order : ℤ)).toNat s.p
  let h_r : ℕ := powMod s.h (r % (s.group_order : ℤ)).toNat s.p
  { commitment := g_m * h_r % s.p
    value := value
    randomness := r
    scale_factor := s.scale_factor }

/-- `PedersenCommitmentScheme.aggregate_commitments` (verifiable_aggregation.py:282). -/
def aggregate_commitments (s : PedersenCommitmentScheme)
    (commitments : List PedersenCommitment) : Except PyErr AggregateCommitment :=
  if commitments.isEmpty then
    .error (.valueError "Cannot aggregate empty list of commitments")
  else
    .ok { commitment := commitments.foldl (fun agg c => agg * c.commitment % s.p) 1
          individual_count := commitments.length
          scale_factor := s.scale_factor }

/-- `PedersenCommitmentScheme.aggregate_openings` (verifiable_aggregation.py:311). -/
def aggregate_openings (s : PedersenCommitmentScheme)
    (openings : List CommitmentOpening) : Except PyErr AggregateOpening :=
  if openings.isEmpty then
    .error (.valueError "Cannot aggregate empty list of openings")
  else
    .ok { total_value := openings.foldl (fun acc o => acc + o.value) 0
          total_randomness := (openings.foldl (fun acc o => acc + o.randomness) 0) % (s.group_order : ℤ)
          scale_factor := s.scale_factor
          agent_count := openings.length }

/-- `PedersenCommitmentScheme.verify` (verifiable_aggregation.py:337). -/
def verify (s : PedersenCommitmentScheme) (claimed_sum : ℚ)
    (commitment_aggregate : AggregateCommitment)
    (opening_aggregate : AggregateOpening) : VerificationResult :=
  let sum_scaled : ℤ := pyInt (claimed_sum * (s.scale_factor : ℚ))
  let expected_commitment : ℕ :=
    powMod s.g (sum_scaled % (s.group_order : ℤ)).toNat s.p *
      powMod s.h (opening_aggregate.total_randomness % (s.group_order : ℤ)).toNat s.p % s.p
  let is_valid : Bool := expected_commitment == commitment_aggregate.commitment
  let committed_sum : ℚ := opening_aggregate.total_value
  { is_valid := is_valid
    decrypted_sum := claimed_sum
    committed_sum := committed_sum
    discrepancy := |claimed_sum - committed_sum|
    message := if is_valid then "✓ VERIFICATION PASSED: Aggregation computed correctly"
               else "✗ VERIFICATION FAILED: Coordinator computed incorrect aggregate!" }

end PedersenCommitmentScheme

/-- The scheme with all default parameters (verifiable_aggregation.py:227-231),
as constructed by `VerifiableAggregator.__init__` with the default scale factor. -/
def defaultScheme : PedersenCommitmentScheme :=
  { p := PEDERSEN_PRIME, g := PEDERSEN_G, h := PEDERSEN_H,
    scale_factor := DEFAULT_SCALE_FACTOR }

/-- `VerifiableAggregator.verify_aggregate` (verifiable_aggregation.py:477): delegates to
`self.scheme.verify`; the pass/fail counters it additionally updates are audit-only
statistics and are not modelled. -/
def VerifiableAggregator.verify_aggregate (decrypted_sum : ℚ)
    (commitment_aggregate : AggregateCommitment)
    (opening_aggregate : AggregateOpening) : VerificationResult :=
  defaultScheme.verify decrypted_sum commitment_aggregate opening_aggregate

/-! ## core/polynomial_comparator.py -/

/-- The affine transform parameters computed by `detect_threshold_encrypted`
(polynomial_comparator.py:260-265): `delta = T/k`, `slope = 0.5/delta`,
`intercept = 0.5 - T*slope`. -/
structure ThresholdParams where
  delta : ℚ
  slope : ℚ
  intercept : ℚ
  deriving DecidableEq

/-- Confidence-zone constant `ZONE_BELOW_THRESHOLD = 0.3` (polynomial_comparator.py:142). -/
def ZONE_BELOW_THRESHOLD : ℚ := 3/10

/-- Confidence-zone constant `ZONE_ABOVE_THRESHOLD = 0.7` (polynomial_comparator.py:143). -/
def ZONE_ABOVE_THRESHOLD : ℚ := 7/10

/-- `EncryptedThresholdDetector._compute_adaptive_sensitivity`
(polynomial_comparator.py:163-201). -/
def computeAdaptiveSensitivity (default_sensitivity threshold min_val max_val : ℚ) : ℚ :=
  let range_span := max_val - min_val
  if range_span ≤ 0 then default_sensitivity
  else if max_val = min_val then default_sensitivity
  else
    let relative_position := (threshold - min_val) / range_span
    let edge_factor := max (1/10) (min relative_position (1 - relative_position))
    max 3 (min (5 / edge_factor) 15)

/-- The parameter-computation part of `EncryptedThresholdDetector.detect_threshold_encrypted`
(polynomial_comparator.py:254-265); the subsequent ciphertext transform applies
`x * slope + intercept` homomorphically (the CKKS operation itself is external).
Python raises `ZeroDivisionError` when a float division has divisor `0.0`:
`delta = threshold / k` raises when `k = 0`, and `slope = 0.5 / delta` raises
when `delta = 0` (i.e. whenever `threshold = 0`). -/
def detectParams (threshold k : ℚ) : Except PyErr ThresholdParams :=
  if k = 0 then .error .zeroDivisionError
  else
    let delta := threshold / k
    if delta = 0 then .error .zeroDivisionError
    else
      let slope := (1/2) / delta
      let intercept := 1/2 - threshold * slope
      .ok { delta := delta, slope := slope, intercept := intercept }

/-- `detect_threshold_encrypted` sensitivity selection (polynomial_comparator.py:254-258):
adaptive when `sensitivity` is absent, explicit otherwise; then the affine parameters. -/
def detectThresholdParams (threshold : ℚ) (sensitivity : Option ℚ)
    (min_val max_val default_sensitivity : ℚ) : Except PyErr ThresholdParams :=
  let k := match sensitivity with
    | none => computeAdaptiveSensitivity default_sensitivity threshold min_val max_val
    | some k => k
  detectParams threshold k

/-- The plaintext meaning of the encrypted score: `E(score) = E(x) * slope + intercept`
(polynomial_comparator.py:269-270). -/
def altScore (P : ThresholdParams) (x : ℚ) : ℚ := x * P.slope + P.intercept

/-- Dataclass `InterpretedResult` (polynomial_comparator.py:105); its human-readable
`interpretation` f-string is presentation-only and not modelled. -/
structure InterpretedResult where
  raw_score : ℚ
  zone : String
  confidence : ℚ
  threshold : ℚ
  deriving DecidableEq

/-- `EncryptedThresholdDetector.interpret_score` (polynomial_comparator.py:331-376).
`threshold or 0` yields `0` when the argument is absent. -/
def interpret_score (decrypted_score : ℚ) (threshold : Option ℚ) : InterpretedResult :=
  let clamped_score := max 0 (min 1 decrypted_score)
  let zoneConf : String × ℚ :=
    if clamped_score < ZONE_BELOW_THRESHOLD then
      ("below", 1 - clamped_score / ZONE_BELOW_THRESHOLD)
    else if ZONE_ABOVE_THRESHOLD < clamped_score then
      ("above", (clamped_score - ZONE_ABOVE_THRESHOLD) / (1 - ZONE_ABOVE_THRESHOLD))
    else
      ("uncertain", |clamped_score - 1/2| / (2/10))
  { raw_score := decrypted_score
    zone := zoneConf.1
    confidence := min 1 (max 0 zoneConf.2)
    threshold := threshold.getD 0 }

/-! ## coordinator/load_balancer.py -/

/-- Enum `LoadBalanceAction` (load_balancer.py:35). -/
inductive LoadBalanceAction where
  | NONE
  | REDUCE_10
  | REDUCE_20
  | REDUCE_30
  | CRITICAL
  deriving DecidableEq

/-- Dataclass `LoadBalanceDecision` (load_balancer.py:44); the wall-clock `timestamp`
and the formatted `reason` string are presentation-only and not modelled. -/
structure LoadBalanceDecision where
  action : LoadBalanceAction
  reduction_factor : ℚ
  total_demand_kw : ℚ
  grid_capacity_kw : ℚ
  utilization_percent : ℚ
  deriving DecidableEq

/-- The threshold scan of `UtilityDecisionMaker.make_decision` (load_balancer.py:191-229):
iterate `sorted(self.thresholds.items())` = `[(0.80, NONE), (0.90, REDUCE_10),
(0.95, REDUCE_20), (1.00, REDUCE_30), (inf, CRITICAL)]` and take the first tier with
`utilization <= threshold`; the `inf` tier always matches, so it is the final default. -/
def pickAction (utilization : ℚ) : LoadBalanceAction :=
  if utilization ≤ 80/100 then .NONE
  else if utilization ≤ 90/100 then .REDUCE_10
  else if utilization ≤ 95/100 then .REDUCE_20
  else if utilization ≤ 1 then .REDUCE_30
  else .CRITICAL

/-- The per-action reduction factor of `make_decision` (load_balancer.py:231-246). -/
def reductionFactor : LoadBalanceAction → ℚ
  | .NONE => 1
  | .REDUCE_10 => 90/100
  | .REDUCE_20 => 80/100
  | .REDUCE_30 => 70/100
  | .CRITICAL => 50/100

/-- `UtilityDecisionMaker.make_decision` (load_balancer.py:199-262) after decryption:
`total_demand` is the decrypted aggregate (`decrypt_demand(encrypted_total)[0]`,
the decryption primitive is external); `utilization = total_demand / grid_capacity`. -/
def make_decision (total_demand grid_capacity : ℚ) : LoadBalanceDecision :=
  let utilization := total_demand / grid_capacity
  let action := pickAction utilization
  { action := action
    reduction_factor := reductionFactor action
    total_demand_kw := total_demand
    grid_capacity_kw := grid_capacity
    utilization_percent := utilization * 100 }

/-- `UtilityDecisionMaker.interpret_encrypted_comparison` (load_balancer.py:273-296),
as a function of the decrypted score (`decrypt_demand(...)[0]`, external primitive).
Line 294 executes `zone, confidence = AdaptivePolynomialComparator.interpret_score(...)`,
but `interpret_score` returns the (non-iterable) `InterpretedResult` dataclass, so the
tuple unpacking raises `TypeError` on every call; the `return zone, confidence,
decrypted_score` on line 296 is unreachable. -/
def interpret_encrypted_comparison (decrypted_score : ℚ) :
    Except PyErr (String × ℚ × ℚ) :=
  let _result := interpret_score decrypted_score none
  .error (.typeError "cannot unpack non-iterable InterpretedResult object")

/-- `UtilityDecisionMaker.verify_aggregation` (load_balancer.py:298-326). Its signature
takes no openings at all, and line 315 calls
`self.verifiable_aggregator.verify_aggregate(decrypted_sum, commitment_aggregate)`,
omitting the required third parameter `opening_aggregate`
(verifiable_aggregation.py:477-480), so Python raises `TypeError` on every call
before any verification logic runs. -/
def UtilityDecisionMaker.verify_aggregation (decrypted_sum : ℚ)
    (commitment_aggregate : AggregateCommitment) : Except PyErr VerificationResult :=
  let _args := (decrypted_sum, commitment_aggregate)
  .error (.typeError "verify_aggregate() missing 1 required positional argument: opening_aggregate")

/-! ## core/fhe_engine.py -/

/-- Values stored in an `EncryptedDemand.metadata` dict on the modelled code paths. -/
inductive MetaVal where
  | str (s : String)
  | nat (n : ℕ)
  | rat (q : ℚ)
  | strList (l : List String)
  deriving DecidableEq

/-- Dataclass `EncryptedDemand` (fhe_engine.py): the serialized ciphertext bytes are
opaque and modelled as a natural number; `metadata` is an insertion-ordered dict. -/
structure EncryptedDemand where
  ciphertext : ℕ
  timestamp : String
  agent_id : String
  vector_size : ℕ
  checksum : String
  metadata : List (String × MetaVal)
  deriving DecidableEq

/-- Python `d[key]` lookup on the modelled dict (first matching key). -/
def metaLookup (m : List (String × MetaVal)) (key : String) : Option MetaVal :=
  (m.find? (fun p => p.1 == key)).map (fun p => p.2)

/-- Python `d[key] = v`: replace the existing entry or append a new one. -/
def metaSet (m : List (String × MetaVal)) (key : String) (v : MetaVal) :
    List (String × MetaVal) :=
  if m.any (fun p => p.1 == key) then
    m.map (fun p => if p.1 == key then (key, v) else p)
  else
    m ++ [(key, v)]

/-- `metadata.get('source_agents', [x.agent_id])` (fhe_engine.py:297,316,346,351). -/
def getSources (e : EncryptedDemand) : List String :=
  match metaLookup e.metadata "source_agents" with
  | some (.strList l) => l
  | _ => [e.agent_id]

/-- `SmartGridFHE._save_encrypted` (fhe_engine.py:278-299): serialization and SHA-256
checksumming of the ciphertext and the wall-clock timestamp are external effects,
abstracted as the parameters `sha12` and `now`; `opCount` is the engine's
`_operation_count` before the call, returned incremented. -/
def save_encrypted (sha12 : ℕ → String) (now : String) (ciphertext : ℕ)
    (original : EncryptedDemand) (operation : String) (opCount : ℕ) :
    EncryptedDemand × ℕ :=
  ({ ciphertext := ciphertext
     timestamp := now
     agent_id := "aggregated_" ++ operation
     vector_size := original.vector_size
     checksum := sha12 ciphertext
     metadata := [("operation", .str operation),
                  ("operation_id", .nat (opCount + 1)),
                  ("source_agents", .strList (getSources original))] },
   opCount + 1)

/-- `SmartGridFHE.aggregate_demands` (fhe_engine.py:323-357). The homomorphic vector
addition on serialized ciphertexts is the external CKKS primitive, abstracted as
`addCipher`. Empty list: `ValueError`; single element: returned as-is (fhe_engine.py:341-342);
otherwise left fold of additions, then `_save_encrypted` plus the `source_agents` and
`agent_count` metadata assignments (fhe_engine.py:354-356). -/
def aggregate_demands (addCipher : ℕ → ℕ → ℕ) (sha12 : ℕ → String) (now : String)
    (opCount : ℕ) : List EncryptedDemand → Except PyErr (EncryptedDemand × ℕ)
  | [] => .error (.valueError "Cannot aggregate empty list")
  | [c] => .ok (c, opCount)
  | c :: rest =>
    let cipherSum := rest.foldl (fun acc e => addCipher acc e.ciphertext) c.ciphertext
    let all_sources := rest.foldl (fun acc e => acc ++ getSources e) (getSources c)
    let saved := save_encrypted sha12 now cipherSum c "aggregate" opCount
    .ok ({ saved.1 with
            metadata := metaSet (metaSet saved.1.metadata "source_agents" (.strList all_sources))
                          "agent_count" (.nat (c :: rest).length) },
         saved.2)

/-! ## Supporting lemmas -/

theorem pyInt_mul_eq (v : ℚ) (S m : ℤ) (hS : (S : ℚ) ≠ 0) (hv : v = (m : ℚ) / (S : ℚ)) :
    pyInt (v * (S : ℚ)) = m := by
  rw [hv, div_mul_cancel₀ _ hS, pyInt_intCast]

/-! ## Claims -/

/-- C1: `UtilityDecisionMaker.verify_aggregation` never aggregates openings nor returns a
`VerificationResult`: its signature takes no openings, and its call to `verify_aggregate`
omits the required `opening_aggregate` parameter, so it raises `TypeError` on every input.
The delegation target `VerifiableAggregator.verify_aggregate` itself does delegate to
`PedersenCommitmentScheme.verify` as the claim describes. -/
theorem claim_C1_verify_aggregation_always_raises :
    (∀ (decrypted_sum : ℚ) (ca : AggregateCommitment),
      UtilityDecisionMaker.verify_aggregation decrypted_sum ca =
        .error (.typeError "verify_aggregate() missing 1 required positional argument: opening_aggregate")) ∧
    (∀ (decrypted_sum : ℚ) (ca : AggregateCommitment) (oa : AggregateOpening),
      VerifiableAggregator.verify_aggregate decrypted_sum ca oa =
        defaultScheme.verify decrypted_sum ca oa) :=
  ⟨fun _ _ => rfl, fun _ _ _ => rfl⟩

/-- C4: for `T > 0` and `k > 0`, `detect_threshold_encrypted` builds the affine transform
with `delta = T/k`, `slope = 0.5/delta`, `intercept = 0.5 - T*slope`, whose score is
exactly `0.5` at `x = T`, `0.0` at `x = T - delta`, `1.0` at `x = T + delta`, and is
strictly increasing between those points. -/
theorem claim_C4_threshold_boundary_law (T k : ℚ) (hT : 0 < T) (hk : 0 < k) :
    ∃ P : ThresholdParams, detectParams T k = .ok P ∧
      P.delta = T / k ∧
      P.slope = (1/2) / (T / k) ∧
      P.intercept = 1/2 - T * ((1/2) / (T / k)) ∧
      altScore P T = 1/2 ∧
      altScore P (T - P.delta) = 0 ∧
      altScore P (T + P.delta) = 1 ∧
      (∀ x y : ℚ, T - P.delta ≤ x → x < y → y ≤ T + P.delta →
        altScore P x < altScore P y) := by
  have hkne : k ≠ 0 := hk.ne'
  have hdpos : 0 < T / k := div_pos hT hk
  have hdne : T / k ≠ 0 := hdpos.ne'
  refine ⟨⟨T / k, (1/2) / (T / k), 1/2 - T * ((1/2) / (T / k))⟩, ?_, rfl, rfl, rfl, ?_, ?_, ?_, ?_⟩
  · simp [detectParams, hkne, hdne]
  · unfold altScore
    dsimp only
    field_simp
    try ring
  · unfold altScore
    dsimp only
    field_simp
    try ring
  · unfold altScore
    dsimp only
    field_simp
    try ring
  · intro x y _ hxy _
    unfold altScore
    dsimp only
    have hslope : 0 < (1/2) / (T / k) := div_pos (by norm_num) hdpos
    exact add_lt_add_right (mul_lt_mul_of_pos_right hxy hslope) _

/-- Witness for C4 at the specification's test point `T = 100`, `k = 7`. -/
theorem claim_C4_witness :
    ∃ P : ThresholdParams, detectParams 100 7 = .ok P ∧
      altScore P 100 = 1/2 ∧ altScore P (100 - P.delta) = 0 ∧
      altScore P (100 + P.delta) = 1 := by
  obtain ⟨P, h1, _, _, _, h5, h6, h7, _⟩ :=
    claim_C4_threshold_boundary_law 100 7 (by norm_num) (by norm_num)
  exact ⟨P, h1, h5, h6, h7⟩

/-- C6: calling threshold detection with `threshold = 0` raises `ZeroDivisionError`
(from `slope = 0.5/delta` with `delta = 0/k = 0`, or from `delta = 0/0` when the explicit
sensitivity is itself `0`), for every sensitivity mode and expected range. -/
theorem claim_C6_zero_threshold_raises_zero_division
    (sensitivity : Option ℚ) (min_val max_val default_sensitivity : ℚ) :
    detectThresholdParams 0 sensitivity min_val max_val default_sensitivity =
      .error .zeroDivisionError := by
  unfold detectThresholdParams detectParams
  rcases sensitivity with _ | k
  · dsimp only
    split
    · rfl
    · simp [zero_div]
  · dsimp only
    split
    · rfl
    · simp [zero_div]

/-- C7 counterexample: on empty input both aggregation operations raise `ValueError`
(not the specification's `CryptoConfigError`), and constructing the scheme with the
non-positive scale factor `-1` raises nothing at all. -/
theorem claim_C7_counterexample :
    defaultScheme.aggregate_commitments [] =
      .error (.valueError "Cannot aggregate empty list of commitments") ∧
    defaultScheme.aggregate_openings [] =
      .error (.valueError "Cannot aggregate empty list of openings") ∧
    defaultScheme.aggregate_commitments [] ≠ .error .cryptoConfigError ∧
    defaultScheme.aggregate_openings [] ≠ .error .cryptoConfigError ∧
    PedersenCommitmentScheme.initChecked PEDERSEN_PRIME PEDERSEN_G PEDERSEN_H (-1) =
      .ok { p := PEDERSEN_PRIME, g := PEDERSEN_G, h := PEDERSEN_H, scale_factor := -1 } :=
  ⟨rfl, rfl, by simp [PedersenCommitmentScheme.aggregate_commitments],
    by simp [PedersenCommitmentScheme.aggregate_openings], rfl⟩

/-- C7 amended: `aggregate_commitments` and `aggregate_openings` raise `ValueError`
(message included) on an empty list, for every scheme instance; the constructor performs
no validation, so any non-positive scale factor is accepted without error. -/
theorem claim_C7_empty_input_value_error (s : PedersenCommitmentScheme)
    (prime g h : ℕ) (scale_factor : ℤ) (_hS : scale_factor ≤ 0) :
    s.aggregate_commitments [] =
      .error (.valueError "Cannot aggregate empty list of commitments") ∧
    s.aggregate_openings [] =
      .error (.valueError "Cannot aggregate empty list of openings") ∧
    PedersenCommitmentScheme.initChecked prime g h scale_factor =
      .ok { p := prime, g := g, h := h, scale_factor := scale_factor } :=
  ⟨rfl, rfl, rfl⟩

/-- Witness for C7 at the default scheme with scale factor `0`. -/
theorem claim_C7_witness :
    (0 : ℤ) ≤ 0 ∧
    defaultScheme.aggregate_openings [] =
      .error (.valueError "Cannot aggregate empty list of openings") :=
  ⟨le_refl 0, (claim_C7_empty_input_value_error defaultScheme PEDERSEN_PRIME
      PEDERSEN_G PEDERSEN_H 0 (le_refl 0)).2.1⟩

/-- C9: `UtilityDecisionMaker.interpret_encrypted_comparison` never returns the
zone/confidence: line 294 tuple-unpacks the `InterpretedResult` dataclass returned by
`interpret_score`, which is not iterable, so every call raises `TypeError`. -/
theorem claim_C9_interpret_comparison_always_raises (decrypted_score : ℚ) :
    interpret_encrypted_comparison decrypted_score =
      .error (.typeError "cannot unpack non-iterable InterpretedResult object") :=
  rfl

/-- C10: `aggregate_demands` on a single-element list returns the element itself,
unchanged in every field and with the operation counter untouched, whereas on a
two-element list it produces a fresh aggregate whose metadata carries `agent_count = 2`
and whose `agent_id` is `aggregated_aggregate`. -/
theorem claim_C10_single_element_aggregate_identity
    (addCipher : ℕ → ℕ → ℕ) (sha12 : ℕ → String) (now : String) (opCount : ℕ)
    (c : EncryptedDemand) :
    aggregate_demands addCipher sha12 now opCount [c] = .ok (c, opCount) ∧
    (∀ c2 : EncryptedDemand, ∃ r : EncryptedDemand × ℕ,
      aggregate_demands addCipher sha12 now opCount [c, c2] = .ok r ∧
      metaLookup r.1.metadata "agent_count" = some (.nat 2) ∧
      r.1.agent_id = "aggregated_aggregate" ∧
      r.2 = opCount + 1) :=
  ⟨rfl, fun _c2 => ⟨_, rfl, rfl, rfl, rfl⟩⟩

/-- Normal form of a commitment when the scaled value is the natural number `m` and the
exponents lie below the group order (so the `% group_order` reductions are inert). -/
theorem commit_commitment_eq (s : PedersenCommitmentScheme) (v : ℚ) (m : ℕ) (r : ℤ)
    (hp : 0 < s.p) (hv : pyInt (v * (s.scale_factor : ℚ)) = (m : ℤ))
    (hm : m < s.group_order) (hr0 : 0 ≤ r) (hrq : r < (s.group_order : ℤ)) :
    (s.commit v (some r) 0).commitment = s.g ^ m * s.h ^ r.toNat % s.p := by
  unfold PedersenCommitmentScheme.commit
  dsimp only
  rw [hv, Int.emod_eq_of_lt (Int.natCast_nonneg m) (by exact_mod_cast hm),
      Int.emod_eq_of_lt hr0 hrq, Int.toNat_natCast,
      powMod_eq _ _ _ hp, powMod_eq _ _ _ hp]
  exact (Nat.mul_mod _ _ _).symm

/-- C3: the commitment algebra `commit(v1;r1)·commit(v2;r2) ≡ commit(v1+v2;r1+r2) (mod p)`
holds whenever the integer scalings add without truncation mismatch
(`int(v1·S) + int(v2·S) = int((v1+v2)·S)`, in particular whenever `v1·S` and `v2·S` are
integers) and the summed exponents stay below the group order `p-1`. -/
theorem claim_C3_commitment_algebra (s : PedersenCommitmentScheme) (v1 v2 : ℚ)
    (m1 m2 : ℕ) (r1 r2 : ℤ) (hp : 0 < s.p)
    (h1 : pyInt (v1 * (s.scale_factor : ℚ)) = (m1 : ℤ))
    (h2 : pyInt (v2 * (s.scale_factor : ℚ)) = (m2 : ℤ))
    (h12 : pyInt ((v1 + v2) * (s.scale_factor : ℚ)) = ((m1 + m2 : ℕ) : ℤ))
    (hmq : m1 + m2 < s.group_order)
    (hr10 : 0 ≤ r1) (hr20 : 0 ≤ r2) (hrq : r1 + r2 < (s.group_order : ℤ)) :
    (s.commit v1 (some r1) 0).commitment * (s.commit v2 (some r2) 0).commitment % s.p
      = (s.commit (v1 + v2) (some (r1 + r2)) 0).commitment := by
  have hm1 : m1 < s.group_order := by omega
  have hm2 : m2 < s.group_order := by omega
  have hr1q : r1 < (s.group_order : ℤ) := by omega
  have hr2q : r2 < (s.group_order : ℤ) := by omega
  rw [commit_commitment_eq s v1 m1 r1 hp h1 hm1 hr10 hr1q,
      commit_commitment_eq s v2 m2 r2 hp h2 hm2 hr20 hr2q,
      commit_commitment_eq s (v1 + v2) (m1 + m2) (r1 + r2) hp h12 hmq (by omega) hrq,
      ← Nat.mul_mod]
  congr 1
  rw [pow_add, Int.toNat_add hr10 hr20, pow_add]
  ring

/-- Witness for C3 with default parameters: values `1e-6` and `2e-6` (exactly scaled),
randomness `3` and `4`. -/
theorem claim_C3_witness :
    (defaultScheme.commit (1/1000000) (some 3) 0).commitment *
        (defaultScheme.commit (2/1000000) (some 4) 0).commitment % defaultScheme.p
      = (defaultScheme.commit (1/1000000 + 2/1000000) (some (3 + 4)) 0).commitment :=
  claim_C3_commitment_algebra defaultScheme (1/1000000) (2/1000000) 1 2 3 4
    (by decide)
    (by norm_num [pyInt, defaultScheme, DEFAULT_SCALE_FACTOR])
    (by norm_num [pyInt, defaultScheme, DEFAULT_SCALE_FACTOR])
    (by norm_num [pyInt, defaultScheme, DEFAULT_SCALE_FACTOR])
    (by decide) (by norm_num) (by norm_num) (by decide)

set_option maxRecDepth 40000 in
/-- C3 counterexample: with the default scheme, values `v1 = v2 = 0.75e-6` (whose scalings
truncate to `0` while the scaling of their sum truncates to `1`) and randomness `0`,
`commit(v1)·commit(v2) mod p = 1` but `commit(v1+v2; r1+r2) = 2`: the claimed identity is
not exact for all values. -/
theorem claim_C3_counterexample :
    ¬ ((defaultScheme.commit (3/4000000) (some 0) 0).commitment *
         (defaultScheme.commit (3/4000000) (some 0) 0).commitment % defaultScheme.p
       = (defaultScheme.commit (3/4000000 + 3/4000000) (some (0 + 0)) 0).commitment) := by
  rw [commit_commitment_eq defaultScheme (3/4000000) 0 0 (by decide)
        (by norm_num [pyInt, defaultScheme, DEFAULT_SCALE_FACTOR]) (by decide)
        (by norm_num) (by decide),
      commit_commitment_eq defaultScheme (3/4000000 + 3/4000000) 1 (0 + 0) (by decide)
        (by norm_num [pyInt, defaultScheme, DEFAULT_SCALE_FACTOR]) (by decide)
        (by norm_num) (by decide)]
  decide

/-- C5: `commit(v, r)` computes `C = g^(m mod p-1) · h^(r mod p-1) mod p` with
`m = int(v·S)` truncated toward zero (not rounded to nearest); when the exponents lie
below the group order this is `g^m · h^r mod p`. The remaining fields store the inputs,
and an absent randomness is replaced by the `randbelow(p-1)` draw, which lies in
`[0, p-2]`. -/
theorem claim_C5_commit_formula (s : PedersenCommitmentScheme) (v : ℚ) (m : ℕ) (r : ℤ)
    (hp : 0 < s.p) (hv : pyInt (v * (s.scale_factor : ℚ)) = (m : ℤ))
    (hm : m < s.group_order) (hr0 : 0 ≤ r) (hrq : r < (s.group_order : ℤ)) :
    ((s.commit v (some r) 0).commitment = s.g ^ m * s.h ^ r.toNat % s.p ∧
      (s.commit v (some r) 0).value = v ∧
      (s.commit v (some r) 0).randomness = r ∧
      (s.commit v (some r) 0).scale_factor = s.scale_factor) ∧
    (∀ sampled : ℕ, sampled < s.group_order →
      (s.commit v none sampled).randomness = (sampled : ℤ) ∧ sampled ≤ s.p - 2) := by
  refine ⟨⟨commit_commitment_eq s v m r hp hv hm hr0 hrq, rfl, rfl, rfl⟩, ?_⟩
  intro sampled hs
  refine ⟨rfl, ?_⟩
  unfold PedersenCommitmentScheme.group_order at hs
  omega

/-- Witness for C5 with default parameters at `v = 1.6e-6`, `r = 5` (the scaled value
`1.6` truncates to `m = 1`). -/
theorem claim_C5_witness :
    (defaultScheme.commit (8/5000000) (some 5) 0).commitment =
      defaultScheme.g ^ 1 * defaultScheme.h ^ (5 : ℤ).toNat % defaultScheme.p :=
  ((claim_C5_commit_formula defaultScheme (8/5000000) 1 5 (by decide)
      (by norm_num [pyInt, defaultScheme, DEFAULT_SCALE_FACTOR]) (by decide)
      (by norm_num) (by decide)).1).1

set_option maxRecDepth 40000 in
/-- C5 counterexample: at `v = 1.6e-6`, `r = 0` with the default scheme, the code commits
to the truncation `int(1.6) = 1` and yields `C = 2`, while the claim's formula
`m = round(v·S) = 2` would yield `g² mod p = 4`. -/
theorem claim_C5_counterexample :
    (defaultScheme.commit (8/5000000) (some 0) 0).commitment = 2 ∧
    round ((8/5000000 : ℚ) * (defaultScheme.scale_factor : ℚ)) = 2 ∧
    defaultScheme.g ^ 2 * defaultScheme.h ^ (0 : ℤ).toNat % defaultScheme.p = 4 ∧
    (2 : ℕ) ≠ 4 := by
  refine ⟨?_, ?_, by decide, by decide⟩
  · rw [commit_commitment_eq defaultScheme (8/5000000) 1 0 (by decide)
        (by norm_num [pyInt, defaultScheme, DEFAULT_SCALE_FACTOR]) (by decide)
        (by norm_num) (by decide)]
    decide
  · rw [show ((defaultScheme.scale_factor : ℤ) : ℚ) = 1000000 by
        norm_num [defaultScheme, DEFAULT_SCALE_FACTOR]]
    rw [round_eq]
    norm_num

/-- C8: `make_decision` computes `utilization = total/capacity`, reports the decrypted
total, and maps the utilization through the ordered tiers `≤0.80 ↦ none/1.0`,
`≤0.90 ↦ reduce_10/0.90`, `≤0.95 ↦ reduce_20/0.80`, `≤1.00 ↦ reduce_30/0.70`,
otherwise `critical/0.50`; in particular `71.25/75 ↦ reduce_20/0.80` and
`60/75 ↦ none/1.0`. -/
theorem claim_C8_make_decision_tiers (total_demand grid_capacity : ℚ)
    (_hcap : 0 < grid_capacity) :
    (total_demand / grid_capacity ≤ 80/100 →
      (make_decision total_demand grid_capacity).action = .NONE ∧
      (make_decision total_demand grid_capacity).reduction_factor = 1) ∧
    (80/100 < total_demand / grid_capacity → total_demand / grid_capacity ≤ 90/100 →
      (make_decision total_demand grid_capacity).action = .REDUCE_10 ∧
      (make_decision total_demand grid_capacity).reduction_factor = 90/100) ∧
    (90/100 < total_demand / grid_capacity → total_demand / grid_capacity ≤ 95/100 →
      (make_decision total_demand grid_capacity).action = .REDUCE_20 ∧
      (make_decision total_demand grid_capacity).reduction_factor = 80/100) ∧
    (95/100 < total_demand / grid_capacity → total_demand / grid_capacity ≤ 1 →
      (make_decision total_demand grid_capacity).action = .REDUCE_30 ∧
      (make_decision total_demand grid_capacity).reduction_factor = 70/100) ∧
    (1 < total_demand / grid_capacity →
      (make_decision total_demand grid_capacity).action = .CRITICAL ∧
      (make_decision total_demand grid_capacity).reduction_factor = 50/100) ∧
    (make_decision total_demand grid_capacity).utilization_percent =
      total_demand / grid_capacity * 100 ∧
    (make_decision total_demand grid_capacity).total_demand_kw = total_demand ∧
    make_decision (285/4) 75 =
      { action := .REDUCE_20, reduction_factor := 80/100, total_demand_kw := 285/4,
        grid_capacity_kw := 75, utilization_percent := 95 } ∧
    make_decision 60 75 =
      { action := .NONE, reduction_factor := 1, total_demand_kw := 60,
        grid_capacity_kw := 75, utilization_percent := 80 } := by
  refine ⟨?_, ?_, ?_, ?_, ?_, rfl, rfl, ?_, ?_⟩
  · intro h1
    have ha : pickAction (total_demand / grid_capacity) = .NONE := by
      unfold pickAction
      rw [if_pos h1]
    exact ⟨by simp [make_decision, ha], by simp [make_decision, ha, reductionFactor]⟩
  · intro h1 h2
    have ha : pickAction (total_demand / grid_capacity) = .REDUCE_10 := by
      unfold pickAction
      rw [if_neg (not_le.mpr h1), if_pos h2]
    exact ⟨by simp [make_decision, ha], by simp [make_decision, ha, reductionFactor]⟩
  · intro h1 h2
    have ha : pickAction (total_demand / grid_capacity) = .REDUCE_20 := by
      unfold pickAction
      rw [if_neg (not_le.mpr (by linarith)), if_neg (not_le.mpr h1), if_pos h2]
    exact ⟨by simp [make_decision, ha], by simp [make_decision, ha, reductionFactor]⟩
  · intro h1 h2
    have ha : pickAction (total_demand / grid_capacity) = .REDUCE_30 := by
      unfold pickAction
      rw [if_neg (not_le.mpr (by linarith)), if_neg (not_le.mpr (by linarith)),
        if_neg (not_le.mpr h1), if_pos h2]
    exact ⟨by simp [make_decision, ha], by simp [make_decision, ha, reductionFactor]⟩
  · intro h1
    have ha : pickAction (total_demand / grid_capacity) = .CRITICAL := by
      unfold pickAction
      rw [if_neg (not_le.mpr (by linarith)), if_neg (not_le.mpr (by linarith)),
        if_neg (not_le.mpr (by linarith)), if_neg (not_le.mpr h1)]
    exact ⟨by simp [make_decision, ha], by simp [make_decision, ha, reductionFactor]⟩
  · norm_num [make_decision, pickAction, reductionFactor, LoadBalanceDecision.mk.injEq]
  · norm_num [make_decision, pickAction, reductionFactor, LoadBalanceDecision.mk.injEq]

/-- Witness for C8 at the specification's Scenario C inputs. -/
theorem claim_C8_witness :
    make_decision (285/4) 75 =
      { action := .REDUCE_20, reduction_factor := 80/100, total_demand_kw := 285/4,
        grid_capacity_kw := 75, utilization_percent := 95 } ∧
    make_decision 60 75 =
      { action := .NONE, reduction_factor := 1, total_demand_kw := 60,
        grid_capacity_kw := 75, utilization_percent := 80 } := by
  have H := claim_C8_make_decision_tiers (285/4) 75 (by norm_num)
  exact ⟨H.2.2.2.2.2.2.2.1, H.2.2.2.2.2.2.2.2⟩

/-- The running product `agg = agg * c.commitment % p` of `aggregate_commitments` over
commitments in normal form collects into `g^Σm · h^Σr mod p`. -/
theorem fold_commit_prod (s : PedersenCommitmentScheme) :
    ∀ (l : List (ℕ × ℕ)) (a : ℕ),
      (∀ x ∈ l, (s.commit ((x.1 : ℚ) / (s.scale_factor : ℚ)) (some (x.2 : ℤ)) 0).commitment
          = s.g ^ x.1 * s.h ^ x.2 % s.p) →
      (l.map fun x => s.commit ((x.1 : ℚ) / (s.scale_factor : ℚ)) (some (x.2 : ℤ)) 0).foldl
        (fun agg c => agg * c.commitment % s.p) (a % s.p)
      = a * (s.g ^ (l.map Prod.fst).sum * s.h ^ (l.map Prod.snd).sum) % s.p := by
  intro l
  induction l with
  | nil =>
    intro a _
    simp
  | cons x t ih =>
    intro a hcs
    simp only [List.map_cons, List.foldl_cons, List.sum_cons]
    rw [hcs x (List.mem_cons_self x t), Nat.mod_mul_mod, Nat.mul_mod_mod,
      ih (a * (s.g ^ x.1 * s.h ^ x.2)) (fun y hy => hcs y (List.mem_cons_of_mem x hy))]
    congr 1
    rw [pow_add, pow_add]
    ring

/-- `aggregate_openings` on openings with exactly-scaled values `mᵢ/S`: the total value is
`(Σmᵢ)/S` and the total randomness is `Σrᵢ` (the final `% (p-1)` is inert below the group
order). -/
theorem aggregate_openings_spec (s : PedersenCommitmentScheme) (pairs : List (ℕ × ℕ))
    (hne : pairs ≠ [])
    (hrq : (pairs.map Prod.snd).sum < s.group_order) :
    s.aggregate_openings (pairs.map fun x =>
        { value := (x.1 : ℚ) / (s.scale_factor : ℚ), randomness := (x.2 : ℤ),
          scale_factor := s.scale_factor, agent_id := "" })
      = .ok { total_value := ((pairs.map Prod.fst).sum : ℚ) / (s.scale_factor : ℚ),
              total_randomness := ((pairs.map Prod.snd).sum : ℤ),
              scale_factor := s.scale_factor, agent_count := pairs.length } := by
  have hval : (pairs.map fun x =>
        ({ value := (x.1 : ℚ) / (s.scale_factor : ℚ), randomness := (x.2 : ℤ),
           scale_factor := s.scale_factor, agent_id := "" } : CommitmentOpening)).foldl
        (fun acc o => acc + o.value) 0
      = ((pairs.map Prod.fst).sum : ℚ) / (s.scale_factor : ℚ) := by
    rw [List.foldl_map]
    rw [show (pairs.foldl (fun acc x => acc + (x.1 : ℚ) / (s.scale_factor : ℚ)) 0)
        = (pairs.map fun x => (x.1 : ℚ) / (s.scale_factor : ℚ)).sum from by
      rw [List.sum_eq_foldl, List.foldl_map]]
    simp_rw [div_eq_mul_inv]
    rw [List.sum_map_mul_right]
    congr 1
    rw [show (fun x : ℕ × ℕ => ((x.1 : ℕ) : ℚ)) = (fun n : ℕ => (n : ℚ)) ∘ Prod.fst from rfl,
      ← List.map_map]
    exact (Nat.cast_list_sum _).symm
  have hrand : (pairs.map fun x =>
        ({ value := (x.1 : ℚ) / (s.scale_factor : ℚ), randomness := (x.2 : ℤ),
           scale_factor := s.scale_factor, agent_id := "" } : CommitmentOpening)).foldl
        (fun acc o => acc + o.randomness) 0
      = ((pairs.map Prod.snd).sum : ℤ) := by
    rw [List.foldl_map]
    rw [show (pairs.foldl (fun acc x => acc + (x.2 : ℤ)) 0)
        = (pairs.map fun x => (x.2 : ℤ)).sum from by
      rw [List.sum_eq_foldl, List.foldl_map]]
    rw [show (fun x : ℕ × ℕ => ((x.2 : ℕ) : ℤ)) = (fun n : ℕ => (n : ℤ)) ∘ Prod.snd from rfl,
      ← List.map_map]
    exact (Nat.cast_list_sum _).symm
  have hne' : (pairs.map fun x =>
      ({ value := (x.1 : ℚ) / (s.scale_factor : ℚ), randomness := (x.2 : ℤ),
         scale_factor := s.scale_factor, agent_id := "" } : CommitmentOpening)).isEmpty
      = false := by
    rcases pairs with _ | ⟨x0, t0⟩
    · exact absurd rfl hne
    · rfl
  unfold PedersenCommitmentScheme.aggregate_openings
  rw [hne', if_neg Bool.false_ne_true, hval, hrand,
    Int.emod_eq_of_lt (Int.natCast_nonneg _) (by exact_mod_cast hrq), List.length_map]

/-- `aggregate_commitments` on commitments to exactly-scaled values: the product of
commitments is the commitment to the sums of the scaled values and randomness. -/
theorem aggregate_commitments_spec (s : PedersenCommitmentScheme) (pairs : List (ℕ × ℕ))
    (hp : 1 < s.p) (hS : (s.scale_factor : ℚ) ≠ 0) (hne : pairs ≠ [])
    (hmq : (pairs.map Prod.fst).sum < s.group_order)
    (hrq : (pairs.map Prod.snd).sum < s.group_order) :
    s.aggregate_commitments (pairs.map fun x =>
        s.commit ((x.1 : ℚ) / (s.scale_factor : ℚ)) (some (x.2 : ℤ)) 0)
      = .ok { commitment :=
                s.g ^ (pairs.map Prod.fst).sum * s.h ^ (pairs.map Prod.snd).sum % s.p,
              individual_count := pairs.length, scale_factor := s.scale_factor } := by
  have hp0 : 0 < s.p := by omega
  have hcs : ∀ x ∈ pairs,
      (s.commit ((x.1 : ℚ) / (s.scale_factor : ℚ)) (some (x.2 : ℤ)) 0).commitment
        = s.g ^ x.1 * s.h ^ x.2 % s.p := by
    intro x hx
    have hm : x.1 < s.group_order :=
      lt_of_le_of_lt
        (List.single_le_sum (fun _ _ => Nat.zero_le _) _ (List.mem_map_of_mem Prod.fst hx))
        hmq
    have hr : x.2 < s.group_order :=
      lt_of_le_of_lt
        (List.single_le_sum (fun _ _ => Nat.zero_le _) _ (List.mem_map_of_mem Prod.snd hx))
        hrq
    rw [commit_commitment_eq s _ x.1 (x.2 : ℤ) hp0
        (pyInt_mul_eq _ _ _ hS (by push_cast; ring)) hm (Int.natCast_nonneg _)
        (by exact_mod_cast hr), Int.toNat_natCast]
  have hne' : (pairs.map fun x =>
      s.commit ((x.1 : ℚ) / (s.scale_factor : ℚ)) (some (x.2 : ℤ)) 0).isEmpty = false := by
    rcases pairs with _ | ⟨x0, t0⟩
    · exact absurd rfl hne
    · rfl
  have hfold := fold_commit_prod s pairs 1 hcs
  rw [Nat.mod_eq_of_lt hp, one_mul] at hfold
  unfold PedersenCommitmentScheme.aggregate_commitments
  rw [hne', if_neg Bool.false_ne_true, hfold, List.length_map]

set_option maxRecDepth 8000 in
/-- C2: for contributions whose values are exact multiples of the scale resolution `1/S`
(value `mᵢ/S` with randomness `rᵢ`, the scaled sums staying below the group order),
verifying the true sum against the aggregated commitments and openings succeeds, and the
reported discrepancy always equals `|claimed_sum - Σvalues|`; at the default scheme, the
specification's offset tests `ε = 10.0` and `ε = 1/S` both fail verification with the
corresponding discrepancies. -/
theorem claim_C2_verification_soundness (s : PedersenCommitmentScheme)
    (pairs : List (ℕ × ℕ)) (hp : 1 < s.p) (hS : (s.scale_factor : ℚ) ≠ 0)
    (hne : pairs ≠ [])
    (hmq : (pairs.map Prod.fst).sum < s.group_order)
    (hrq : (pairs.map Prod.snd).sum < s.group_order) :
    ((s.aggregate_openings (pairs.map fun x =>
        { value := (x.1 : ℚ) / (s.scale_factor : ℚ), randomness := (x.2 : ℤ),
          scale_factor := s.scale_factor, agent_id := "" })).map
        (fun ao => ao.total_value)
      = .ok (((pairs.map Prod.fst).sum : ℚ) / (s.scale_factor : ℚ))) ∧
    ((s.aggregate_commitments (pairs.map fun x =>
        s.commit ((x.1 : ℚ) / (s.scale_factor : ℚ)) (some (x.2 : ℤ)) 0)).bind (fun ac =>
      (s.aggregate_openings (pairs.map fun x =>
        { value := (x.1 : ℚ) / (s.scale_factor : ℚ), randomness := (x.2 : ℤ),
          scale_factor := s.scale_factor, agent_id := "" })).map (fun ao =>
        (s.verify (((pairs.map Prod.fst).sum : ℚ) / (s.scale_factor : ℚ)) ac ao).is_valid))
      = .ok true) ∧
    (∀ claimed : ℚ,
      ((s.aggregate_commitments (pairs.map fun x =>
          s.commit ((x.1 : ℚ) / (s.scale_factor : ℚ)) (some (x.2 : ℤ)) 0)).bind (fun ac =>
        (s.aggregate_openings (pairs.map fun x =>
          { value := (x.1 : ℚ) / (s.scale_factor : ℚ), randomness := (x.2 : ℤ),
            scale_factor := s.scale_factor, agent_id := "" })).map (fun ao =>
          (s.verify claimed ac ao).discrepancy))
        = .ok |claimed - ((pairs.map Prod.fst).sum : ℚ) / (s.scale_factor : ℚ)|)) ∧
    ((defaultScheme.aggregate_commitments ([((1:ℕ),(5:ℕ)), (2,7)].map fun x =>
        defaultScheme.commit ((x.1 : ℚ) / (defaultScheme.scale_factor : ℚ))
          (some (x.2 : ℤ)) 0)).bind (fun ac =>
      (defaultScheme.aggregate_openings ([((1:ℕ),(5:ℕ)), (2,7)].map fun x =>
        { value := (x.1 : ℚ) / (defaultScheme.scale_factor : ℚ), randomness := (x.2 : ℤ),
          scale_factor := defaultScheme.scale_factor, agent_id := "" })).map
        (fun ao =>
          ((defaultScheme.verify (3/1000000 + 10) ac ao).is_valid,
           (defaultScheme.verify (3/1000000 + 10) ac ao).discrepancy,
           (defaultScheme.verify (3/1000000 + 1/1000000) ac ao).is_valid,
           (defaultScheme.verify (3/1000000 + 1/1000000) ac ao).discrepancy)))
      = .ok (false, 10, false, 1/1000000)) := by
  have hp0 : 0 < s.p := by omega
  refine ⟨?_, ?_, ?_, ?_⟩
  · rw [aggregate_openings_spec s pairs hne hrq]
    rfl
  · rw [aggregate_commitments_spec s pairs hp hS hne hmq hrq,
      aggregate_openings_spec s pairs hne hrq]
    simp only [Except.bind, Except.map]
    refine congrArg Except.ok ?_
    unfold PedersenCommitmentScheme.verify
    dsimp only
    rw [pyInt_mul_eq _ _ ((pairs.map Prod.fst).sum : ℤ) hS (by rw [Int.cast_natCast]),
      Int.emod_eq_of_lt (Int.natCast_nonneg _) (by exact_mod_cast hmq),
      Int.emod_eq_of_lt (Int.natCast_nonneg _) (by exact_mod_cast hrq),
      Int.toNat_natCast, Int.toNat_natCast,
      powMod_eq _ _ _ hp0, powMod_eq _ _ _ hp0, ← Nat.mul_mod]
    simp
  · intro claimed
    rw [aggregate_commitments_spec s pairs hp hS hne hmq hrq,
      aggregate_openings_spec s pairs hne hrq]
    rfl
  · rw [aggregate_commitments_spec defaultScheme [(1,5),(2,7)] (by decide)
        (by norm_num [defaultScheme, DEFAULT_SCALE_FACTOR]) (by decide) (by decide)
        (by decide),
      aggregate_openings_spec defaultScheme [(1,5),(2,7)] (by decide) (by decide)]
    simp only [Except.bind, Except.map]
    refine congrArg Except.ok ?_
    have e1 : pyInt ((3/1000000 + 10 : ℚ) * (defaultScheme.scale_factor : ℚ))
        = 10000003 := by
      norm_num [pyInt, defaultScheme, DEFAULT_SCALE_FACTOR]
    have e2 : pyInt ((3/1000000 + 1/1000000 : ℚ) * (defaultScheme.scale_factor : ℚ))
        = 4 := by
      norm_num [pyInt, defaultScheme, DEFAULT_SCALE_FACTOR]
    have hsum3 : (((([((1:ℕ),(5:ℕ)), (2,7)].map Prod.fst).sum : ℕ)) : ℚ) = 3 := by
      norm_num
    have hSQ : ((defaultScheme.scale_factor : ℤ) : ℚ) = 1000000 := by
      norm_num [defaultScheme, DEFAULT_SCALE_FACTOR]
    unfold PedersenCommitmentScheme.verify
    dsimp only
    rw [e1, e2]
    simp only [Prod.mk.injEq]
    refine ⟨?_, ?_, ?_, ?_⟩
    · decide
    · rw [hsum3, hSQ,
        show (3/1000000 + 10 - 3/1000000 : ℚ) = 10 from by norm_num,
        abs_of_nonneg (by norm_num : (0:ℚ) ≤ 10)]
    · decide
    · rw [hsum3, hSQ,
        show (3/1000000 + 1/1000000 - 3/1000000 : ℚ) = 1/1000000 from by norm_num,
        abs_of_nonneg (by norm_num : (0:ℚ) ≤ 1/1000000)]

/-- The two-element unfolding of `aggregate_commitments` (generic, so it carries no
numeric evaluation). -/
theorem aggregate_commitments_pair (s : PedersenCommitmentScheme)
    (c1 c2 : PedersenCommitment) :
    s.aggregate_commitments [c1, c2]
      = .ok { commitment := (1 * c1.commitment % s.p) * c2.commitment % s.p,
              individual_count := 2, scale_factor := s.scale_factor } := rfl

/-- The two-element unfolding of `aggregate_openings` (generic, so it carries no
numeric evaluation). -/
theorem aggregate_openings_pair (s : PedersenCommitmentScheme)
    (o1 o2 : CommitmentOpening) :
    s.aggregate_openings [o1, o2]
      = .ok { total_value := 0 + o1.value + o2.value,
              total_randomness := (0 + o1.randomness + o2.randomness) % (s.group_order : ℤ),
              scale_factor := s.scale_factor, agent_count := 2 } := rfl

/-- Witness for C2 at the default scheme with contributions `1e-6` (randomness 5) and
`2e-6` (randomness 7): verifying the true sum succeeds. -/
theorem claim_C2_witness :
    ((defaultScheme.aggregate_commitments ([((1:ℕ),(5:ℕ)), (2,7)].map fun x =>
        defaultScheme.commit ((x.1 : ℚ) / (defaultScheme.scale_factor : ℚ))
          (some (x.2 : ℤ)) 0)).bind (fun ac =>
      (defaultScheme.aggregate_openings ([((1:ℕ),(5:ℕ)), (2,7)].map fun x =>
        { value := (x.1 : ℚ) / (defaultScheme.scale_factor : ℚ), randomness := (x.2 : ℤ),
          scale_factor := defaultScheme.scale_factor, agent_id := "" })).map (fun ao =>
        (defaultScheme.verify ((([((1:ℕ),(5:ℕ)), (2,7)].map Prod.fst).sum : ℚ)
            / (defaultScheme.scale_factor : ℚ)) ac ao).is_valid))
      = .ok true) :=
  (claim_C2_verification_soundness defaultScheme [(1,5),(2,7)] (by decide)
    (by norm_num [defaultScheme, DEFAULT_SCALE_FACTOR]) (by decide) (by decide)
    (by decide)).2.1

set_option maxRecDepth 8000 in
/-- C2 counterexample: with the default scheme and two contributions of `0.75e-6` each
(whose scalings truncate to `0` while the scaling of the true sum `1.5e-6` truncates to
`1`), verifying the true sum against the honestly aggregated commitments and openings
returns `valid = false`: the claimed soundness does not hold for every contribution
list. -/
theorem claim_C2_counterexample :
    ((defaultScheme.aggregate_commitments
        [defaultScheme.commit (3/4000000) (some 0) 0,
         defaultScheme.commit (3/4000000) (some 0) 0]).bind (fun ac =>
      (defaultScheme.aggregate_openings
        [{ value := 3/4000000, randomness := 0, scale_factor := 1000000, agent_id := "h1" },
         { value := 3/4000000, randomness := 0, scale_factor := 1000000, agent_id := "h2" }]).map
        (fun ao => (defaultScheme.verify (3/4000000 + 3/4000000) ac ao).is_valid))
      = .ok false) := by
  rw [aggregate_commitments_pair, aggregate_openings_pair]
  simp only [Except.bind, Except.map]
  refine congrArg Except.ok ?_
  have cc : (defaultScheme.commit (3/4000000) (some 0) 0).commitment
      = defaultScheme.g ^ 0 * defaultScheme.h ^ (0 : ℤ).toNat % defaultScheme.p :=
    commit_commitment_eq defaultScheme (3/4000000) 0 0 (by decide)
      (by norm_num [pyInt, defaultScheme, DEFAULT_SCALE_FACTOR]) (by decide)
      (by norm_num) (by decide)
  have e1 : pyInt ((3/4000000 + 3/4000000 : ℚ) * (defaultScheme.scale_factor : ℚ)) = 1 := by
    norm_num [pyInt, defaultScheme, DEFAULT_SCALE_FACTOR]
  unfold PedersenCommitmentScheme.verify
  dsimp only
  rw [e1, cc]
  decide
